import Mathlib

/-!
Shallow embedding of `src/generate_ico.py` (the `main` procedure of the
Phraims icon-generation script) and proofs of the specified properties.

The script reads PNG files from the directory `phraims.iconset`, optionally
synthesizes a 48x48 image from the 256x256 one, sorts the collected images
by pixel area descending and saves them as `resources/phraims.ico`.
The filesystem the script interacts with is modelled by the `FS` structure;
the effects and results of a run are collected in `RunOutcome`.
-/

namespace GenerateIco

/-- Resampling filters of the image library (`PIL.Image`); the script always
selects LANCZOS (through either the new `Image.Resampling.LANCZOS` or the old
`Image.LANCZOS` spelling, which denote the same filter). -/
inductive Resample where
  | lanczos
  | nearest
  | bilinear
  | bicubic
  deriving DecidableEq

/-- A decoded image handle: either a PNG decoded from a file (with its pixel
dimensions and abstract pixel content), or the result of a `resize` call on
another image with a target size and a resampling filter. -/
inductive Image where
  | png (width height : Nat) (content : Nat)
  | resized (orig : Image) (width height : Nat) (filter : Resample)
  deriving DecidableEq

/-- Pixel width, `img.size[0]` in the script. -/
def Image.width : Image → Nat
  | .png w _ _ => w
  | .resized _ w _ _ => w

/-- Pixel height, `img.size[1]` in the script. -/
def Image.height : Image → Nat
  | .png _ h _ => h
  | .resized _ _ h _ => h

/-- Pixel area, `img.size[0] * img.size[1]`, the sort key of the script. -/
def Image.area (img : Image) : Nat := img.width * img.height

/-- Embedding of `img.resize((w, h), resample)`. -/
def Image.resize (img : Image) (w h : Nat) (f : Resample) : Image :=
  .resized img w h f

/-- The filesystem state the script reads. `iconsetFiles` lists the files of
the `phraims.iconset` directory together with the image each one decodes to
(meaningful only when `iconsetDirExists` is true); `saveSucceeds` abstracts
whether the ICO encoder's `save` call produces the output file (`save`
overwrites any previous output, so this is independent of prior state);
`unrelatedState` stands for every part of the filesystem the script never
reads, such as a `resources` directory left behind by an earlier run. -/
structure FS where
  iconsetDirExists : Bool
  iconsetFiles : List (String × Image)
  saveSucceeds : Bool
  unrelatedState : Nat
  deriving DecidableEq

/-- Look up a file of the iconset directory by name, returning the image it
decodes to when present. -/
def FS.findFile (fs : FS) (name : String) : Option Image :=
  (fs.iconsetFiles.find? (fun p => p.1 == name)).map Prod.snd

/-- Embedding of `os.path.exists(os.path.join(iconset_dir, name))` (only
consulted after the directory-existence check has passed). -/
def FS.pathExists (fs : FS) (name : String) : Bool :=
  (fs.findFile name).isSome

/-- Embedding of `Image.open(png_path)`; only called on paths that exist, so
the default is never reached. -/
def FS.openImage (fs : FS) (name : String) : Image :=
  (fs.findFile name).getD (.png 0 0 0)

/-- The `png_files` list of the script, in its order. -/
def pngFiles : List String :=
  ["icon_16x16.png", "icon_32x32.png", "icon_32x32@2x.png",
   "icon_128x128.png", "icon_256x256.png"]

/-- State threaded through the `for png_file in png_files` loop: the
collected images, the lines printed to stdout and stderr so far, and the
files opened so far. -/
structure LoopState where
  images : List Image
  stdout : List String
  stderr : List String
  opened : List String
  deriving DecidableEq

/-- One iteration of the collection loop: if the file exists it is opened and
appended to `images` (and an `Added` line printed), otherwise a warning is
written to stderr. -/
def collectStep (fs : FS) (st : LoopState) (name : String) : LoopState :=
  if fs.pathExists name then
    let img := fs.openImage name
    let w := img.width
    let h := img.height
    { st with
        images := st.images ++ [img]
        stdout := st.stdout ++ [s!"Added {name} ({w}x{h})"]
        opened := st.opened ++ [name] }
  else
    { st with stderr := st.stderr ++ [s!"Warning: {name} not found"] }

/-- The whole collection loop, starting from the empty state
(`images = []`). -/
def collectLoop (fs : FS) : LoopState :=
  pngFiles.foldl (collectStep fs) ⟨[], [], [], []⟩

/-- Embedding of Python's `list.insert(i, x)` for a nonnegative index: the
element is placed before position `i`, and an index past the end appends
(Python clamps, unlike `List.insertIdx` which is the identity there). -/
def pyInsert (xs : List α) (i : Nat) (x : α) : List α :=
  xs.take i ++ x :: xs.drop i

/-- The `Generate 48x48 from 256x256` block: when `icon_256x256.png` exists
it is opened, resized to 48x48 with LANCZOS, and inserted at index 2 of the
collected list; otherwise the list is unchanged. -/
def imagesWith48 (fs : FS) (images : List Image) : List Image :=
  if fs.pathExists "icon_256x256.png" then
    pyInsert images 2 ((fs.openImage "icon_256x256.png").resize 48 48 .lanczos)
  else
    images

/-- The sort key relation of `sorted(images, key=lambda img: img.size[0] *
img.size[1], reverse=True)`: `a` may come before `b` when `a`'s area is at
least `b`'s. -/
def areaGe (a b : Image) : Prop := b.area ≤ a.area

instance : DecidableRel areaGe := fun a b => Nat.decLe b.area a.area

instance : IsTotal Image areaGe := ⟨fun a b => Nat.le_total b.area a.area⟩

instance : IsTrans Image areaGe := ⟨fun _ _ _ hab hbc => Nat.le_trans hbc hab⟩

/-- Contents of the output file `resources/phraims.ico` as produced by the
`save` call: the images actually encoded, primary first then the appended
ones (passing `append_images=None` and an empty list coincide), and the
`sizes` metadata handed to the encoder. -/
structure IcoOutput where
  images : List Image
  sizes : List (Nat × Nat)
  deriving DecidableEq

/-- Observable result of one run of the script: exit status, the lines
printed to stdout and to stderr, which iconset files were opened, whether
`os.makedirs("resources", ...)` was reached, and the output file written
(`none` when no output file was produced). -/
structure RunOutcome where
  exitCode : Nat
  stdout : List String
  stderr : List String
  openedFiles : List String
  madeResourcesDir : Bool
  saved : Option IcoOutput
  deriving DecidableEq

/-- Embedding of `main()` of `generate_ico.py`, as a function of the
filesystem state it reads. Python's `sorted` is a stable sort; with the
area-descending key it computes exactly `List.insertionSort areaGe`, which
is also stable (ties keep their original relative order). -/
def main (fs : FS) : RunOutcome :=
  if !fs.iconsetDirExists then
    { exitCode := 1
      stdout := []
      stderr := ["Error: phraims.iconset directory not found"]
      openedFiles := []
      madeResourcesDir := false
      saved := none }
  else
    let st := collectLoop fs
    let has256 := fs.pathExists "icon_256x256.png"
    let images := imagesWith48 fs st.images
    let opened := if has256 then st.opened ++ ["icon_256x256.png"] else st.opened
    let stdout := if has256 then st.stdout ++ ["Generated 48x48 from 256x256"] else st.stdout
    if images.isEmpty then
      { exitCode := 1
        stdout := stdout
        stderr := st.stderr ++ ["Error: No PNG images found to convert"]
        openedFiles := opened
        madeResourcesDir := false
        saved := none }
    else
      let sizes := images.map (fun img => (img.width, img.height))
      let imagesSorted := List.insertionSort areaGe images
      if fs.saveSucceeds then
        { exitCode := 0
          stdout := stdout ++ ["Successfully created resources/phraims.ico"]
          stderr := st.stderr
          openedFiles := opened
          madeResourcesDir := true
          saved := some { images := imagesSorted, sizes := sizes } }
      else
        { exitCode := 1
          stdout := stdout
          stderr := st.stderr ++ ["Error: Failed to create resources/phraims.ico"]
          openedFiles := opened
          madeResourcesDir := true
          saved := none }

/-! ### Concrete filesystem states used to instantiate the theorems -/

/-- A populated iconset directory with all five expected files present, each
decoding to an image of its nominal size. -/
def fsAll : FS where
  iconsetDirExists := true
  iconsetFiles :=
    [("icon_16x16.png", .png 16 16 1), ("icon_32x32.png", .png 32 32 2),
     ("icon_32x32@2x.png", .png 64 64 3), ("icon_128x128.png", .png 128 128 4),
     ("icon_256x256.png", .png 256 256 5)]
  saveSucceeds := true
  unrelatedState := 0

/-- A filesystem in which the iconset directory does not exist. -/
def fsNoDir : FS where
  iconsetDirExists := false
  iconsetFiles := []
  saveSucceeds := true
  unrelatedState := 0

/-- An existing iconset directory holding only a file unrelated to the five
expected names. -/
def fsUnrelatedOnly : FS where
  iconsetDirExists := true
  iconsetFiles := [("readme.txt", .png 1 1 0)]
  saveSucceeds := true
  unrelatedState := 0

/-- An iconset directory holding only the 16x16 file (in particular no
256x256 source). -/
def fsNo256 : FS where
  iconsetDirExists := true
  iconsetFiles := [("icon_16x16.png", .png 16 16 7)]
  saveSucceeds := true
  unrelatedState := 0

/-- An iconset directory holding only the 256x256 file. -/
def fsOnly256 : FS where
  iconsetDirExists := true
  iconsetFiles := [("icon_256x256.png", .png 256 256 9)]
  saveSucceeds := true
  unrelatedState := 0

/-- The filesystem as a second run on `fsAll` finds it: identical iconset
directory contents and encoder behavior, but different unrelated state (for
instance, `resources/phraims.ico` now exists, left by the first run). -/
def fsAllSecondRun : FS where
  iconsetDirExists := true
  iconsetFiles :=
    [("icon_16x16.png", .png 16 16 1), ("icon_32x32.png", .png 32 32 2),
     ("icon_32x32@2x.png", .png 64 64 3), ("icon_128x128.png", .png 128 128 4),
     ("icon_256x256.png", .png 256 256 5)]
  saveSucceeds := true
  unrelatedState := 1

/-- The output file produced by running the script on `fsAll`: the six
images in area-descending order, and the sizes metadata in pre-sort
insertion order. -/
def outAll : IcoOutput where
  images :=
    [.png 256 256 5, .png 128 128 4, .png 64 64 3,
     .resized (.png 256 256 5) 48 48 .lanczos, .png 32 32 2, .png 16 16 1]
  sizes := [(16, 16), (32, 32), (48, 48), (64, 64), (128, 128), (256, 256)]

/-! ### Characterization of the collection loop -/

/-- The images collected by a run of the loop from an arbitrary starting
state: exactly the images of the expected files that are present, in the
order of `png_files`. -/
theorem foldl_collectStep_images (fs : FS) (l : List String) (st : LoopState) :
    (l.foldl (collectStep fs) st).images = st.images ++ l.filterMap fs.findFile := by
  induction l generalizing st with
  | nil => simp
  | cons a l ih =>
    cases h : fs.findFile a <;>
      simp [collectStep, FS.pathExists, FS.openImage, h, ih, List.filterMap_cons]

/-- The stderr lines produced by a run of the loop from an arbitrary
starting state: one warning per absent expected file, in order. -/
theorem foldl_collectStep_stderr (fs : FS) (l : List String) (st : LoopState) :
    (l.foldl (collectStep fs) st).stderr =
      st.stderr ++ (l.filter (fun n => !fs.pathExists n)).map
        (fun n => s!"Warning: {n} not found") := by
  induction l generalizing st with
  | nil => simp
  | cons a l ih =>
    cases h : fs.findFile a <;>
      simp [collectStep, FS.pathExists, h, ih, List.filter_cons]

/-- Collected images of the whole loop. -/
theorem collectLoop_images (fs : FS) :
    (collectLoop fs).images = pngFiles.filterMap fs.findFile := by
  simpa [collectLoop] using foldl_collectStep_images fs pngFiles ⟨[], [], [], []⟩

/-- Warnings of the whole loop. -/
theorem collectLoop_stderr (fs : FS) :
    (collectLoop fs).stderr = (pngFiles.filter (fun n => !fs.pathExists n)).map
      (fun n => s!"Warning: {n} not found") := by
  simpa [collectLoop] using foldl_collectStep_stderr fs pngFiles ⟨[], [], [], []⟩

/-- Every stderr line of the collection loop survives into the stderr of the
whole run (the later branches only ever append to it). -/
theorem collectLoop_stderr_subset_main (fs : FS) (hdir : fs.iconsetDirExists = true)
    (x : String) (hx : x ∈ (collectLoop fs).stderr) : x ∈ (main fs).stderr := by
  simp only [main, hdir, Bool.not_true, Bool.false_eq_true, if_false]
  split
  · simpa using Or.inl hx
  · split
    · simpa using hx
    · simpa using Or.inl hx

/-- The success branch of the run: when the directory exists, at least one
image was collected and the save succeeds, the run exits 0 and writes the
sorted images with the pre-sort sizes metadata. -/
theorem main_success (fs : FS) (hdir : fs.iconsetDirExists = true)
    (hsave : fs.saveSucceeds = true)
    (hne : (imagesWith48 fs (collectLoop fs).images).isEmpty = false) :
    (main fs).exitCode = 0 ∧
      (main fs).saved = some
        { images := List.insertionSort areaGe (imagesWith48 fs (collectLoop fs).images)
          sizes := (imagesWith48 fs (collectLoop fs).images).map
            (fun img => (img.width, img.height)) } := by
  unfold main
  rw [hdir]
  simp [hne, hsave]

/-! ### The claims -/

/-- C2: when the source directory `phraims.iconset` does not exist, `main`
writes the error to standard error and exits with status 1 before opening
any image, before creating the resources directory and before writing any
output file: the outcome is exactly the error outcome, with no file opened
and no filesystem state modified. -/
theorem main_missing_dir (fs : FS) (h : fs.iconsetDirExists = false) :
    main fs =
      { exitCode := 1
        stdout := []
        stderr := ["Error: phraims.iconset directory not found"]
        openedFiles := []
        madeResourcesDir := false
        saved := none } := by
  simp [main, h]

/-- Witness for C2 at a concrete filesystem without the iconset directory. -/
theorem main_missing_dir_witness :
    main fsNoDir =
      { exitCode := 1
        stdout := []
        stderr := ["Error: phraims.iconset directory not found"]
        openedFiles := []
        madeResourcesDir := false
        saved := none } :=
  main_missing_dir fsNoDir rfl

/-- C8: in every fatal pre-write case (missing source directory, or zero
expected files found), `main` exits with status 1 without reaching the
`os.makedirs` call and without writing an output file. -/
theorem main_fatal_leaves_state (fs : FS)
    (h : fs.iconsetDirExists = false ∨ ∀ n ∈ pngFiles, fs.findFile n = none) :
    (main fs).exitCode = 1 ∧ (main fs).madeResourcesDir = false ∧
      (main fs).saved = none := by
  rcases h with h | h
  · simp [main, h]
  · have h256 := h "icon_256x256.png" (by simp [pngFiles])
    have himg : (collectLoop fs).images = [] := by
      rw [collectLoop_images]
      have h16 := h "icon_16x16.png" (by simp [pngFiles])
      have h32 := h "icon_32x32.png" (by simp [pngFiles])
      have h64 := h "icon_32x32@2x.png" (by simp [pngFiles])
      have h128 := h "icon_128x128.png" (by simp [pngFiles])
      simp [pngFiles, h16, h32, h64, h128, h256]
    cases hd : fs.iconsetDirExists with
    | false => simp [main, hd]
    | true => simp [main, hd, himg, imagesWith48, FS.pathExists, h256]

/-- Witness for C8 at a concrete directory containing only an unrelated
file. -/
theorem main_fatal_leaves_state_witness :
    (main fsUnrelatedOnly).exitCode = 1 ∧
      (main fsUnrelatedOnly).madeResourcesDir = false ∧
      (main fsUnrelatedOnly).saved = none :=
  main_fatal_leaves_state fsUnrelatedOnly (Or.inr (by decide))

/-- C3: when the source directory exists but none of the five expected
filenames are present (whatever else the directory contains), `main` writes
an error line to standard error and exits with status 1. -/
theorem main_no_matching_files (fs : FS)
    (hdir : fs.iconsetDirExists = true)
    (h : ∀ n ∈ pngFiles, fs.findFile n = none) :
    (main fs).exitCode = 1 ∧
      "Error: No PNG images found to convert" ∈ (main fs).stderr := by
  have h256 := h "icon_256x256.png" (by simp [pngFiles])
  have himg : (collectLoop fs).images = [] := by
    rw [collectLoop_images]
    have h16 := h "icon_16x16.png" (by simp [pngFiles])
    have h32 := h "icon_32x32.png" (by simp [pngFiles])
    have h64 := h "icon_32x32@2x.png" (by simp [pngFiles])
    have h128 := h "icon_128x128.png" (by simp [pngFiles])
    simp [pngFiles, h16, h32, h64, h128, h256]
  simp [main, hdir, himg, imagesWith48, FS.pathExists, h256]

/-- Witness for C3 at a concrete directory containing only an unrelated
file. -/
theorem main_no_matching_files_witness :
    (main fsUnrelatedOnly).exitCode = 1 ∧
      "Error: No PNG images found to convert" ∈ (main fsUnrelatedOnly).stderr :=
  main_no_matching_files fsUnrelatedOnly rfl (by decide)

/-- C1: when the source directory exists, all five expected files are
present and the save succeeds, `main` exits with status 0 and the output
file's sizes metadata has exactly the six resolution entries: the
dimensions of the five originals, plus a synthesized 48x48 at index 2. -/
theorem main_all_five (fs : FS) (i16 i32 i64 i128 i256 : Image)
    (hdir : fs.iconsetDirExists = true)
    (h16 : fs.findFile "icon_16x16.png" = some i16)
    (h32 : fs.findFile "icon_32x32.png" = some i32)
    (h64 : fs.findFile "icon_32x32@2x.png" = some i64)
    (h128 : fs.findFile "icon_128x128.png" = some i128)
    (h256 : fs.findFile "icon_256x256.png" = some i256)
    (hsave : fs.saveSucceeds = true) :
    (main fs).exitCode = 0 ∧
      ∃ out, (main fs).saved = some out ∧
        out.sizes =
          [(i16.width, i16.height), (i32.width, i32.height), (48, 48),
           (i64.width, i64.height), (i128.width, i128.height),
           (i256.width, i256.height)] := by
  have himg : (collectLoop fs).images = [i16, i32, i64, i128, i256] := by
    rw [collectLoop_images]
    simp [pngFiles, h16, h32, h64, h128, h256]
  have h2 : imagesWith48 fs (collectLoop fs).images =
      [i16, i32, Image.resized i256 48 48 .lanczos, i64, i128, i256] := by
    rw [himg]
    simp [imagesWith48, FS.pathExists, FS.openImage, h256, pyInsert, Image.resize]
  simp [main, hdir, h2, hsave, Image.width, Image.height]

/-- Witness for C1 at a concrete filesystem with all five files present, of
their nominal sizes. -/
theorem main_all_five_witness :
    (main fsAll).exitCode = 0 ∧
      ∃ out, (main fsAll).saved = some out ∧
        out.sizes = [(16, 16), (32, 32), (48, 48), (64, 64), (128, 128), (256, 256)] :=
  main_all_five fsAll (.png 16 16 1) (.png 32 32 2) (.png 64 64 3)
    (.png 128 128 4) (.png 256 256 5) rfl rfl rfl rfl rfl rfl rfl

/-- C4: when `icon_256x256.png` is absent, no 48x48 entry is synthesized
(the list handed to the encoding stage is exactly the images of the present
expected files, in order); each individually missing expected file only
produces a warning on stderr; and if at least one expected file is present
and the save succeeds, `main` still completes with exit status 0. -/
theorem main_no_256 (fs : FS)
    (hdir : fs.iconsetDirExists = true)
    (h256 : fs.findFile "icon_256x256.png" = none) :
    imagesWith48 fs (collectLoop fs).images = pngFiles.filterMap fs.findFile ∧
      (∀ n ∈ pngFiles, fs.findFile n = none →
        s!"Warning: {n} not found" ∈ (main fs).stderr) ∧
      (pngFiles.filterMap fs.findFile ≠ [] → fs.saveSucceeds = true →
        (main fs).exitCode = 0) := by
  have hins : imagesWith48 fs (collectLoop fs).images = pngFiles.filterMap fs.findFile := by
    rw [collectLoop_images]
    simp [imagesWith48, FS.pathExists, h256]
  refine ⟨hins, ?_, ?_⟩
  · intro n hn hnone
    refine collectLoop_stderr_subset_main fs hdir _ ?_
    rw [collectLoop_stderr]
    simp only [List.mem_map, List.mem_filter]
    exact ⟨n, ⟨hn, by simp [FS.pathExists, hnone]⟩, rfl⟩
  · intro hne hsave
    have hempty : (imagesWith48 fs (collectLoop fs).images).isEmpty = false := by
      rw [hins]
      simpa using hne
    simp [main, hdir, hempty, hsave]

/-- Witness for C4 at a concrete directory holding only the 16x16 file. -/
theorem main_no_256_witness :
    imagesWith48 fsNo256 (collectLoop fsNo256).images =
        pngFiles.filterMap fsNo256.findFile ∧
      (∀ n ∈ pngFiles, fsNo256.findFile n = none →
        s!"Warning: {n} not found" ∈ (main fsNo256).stderr) ∧
      (pngFiles.filterMap fsNo256.findFile ≠ [] → fsNo256.saveSucceeds = true →
        (main fsNo256).exitCode = 0) :=
  main_no_256 fsNo256 rfl rfl

/-- C5: when `icon_256x256.png` is present, the 48x48 variant is produced by
resizing that source image to 48x48 with the LANCZOS filter and is inserted
at index 2 of the collected list, whatever the other collected images were;
when the run saves, the synthesized image is part of the output file. -/
theorem main_inserts_48 (fs : FS) (i256 : Image)
    (h256 : fs.findFile "icon_256x256.png" = some i256) (images : List Image) :
    imagesWith48 fs images = pyInsert images 2 (i256.resize 48 48 Resample.lanczos) ∧
      (i256.resize 48 48 Resample.lanczos).width = 48 ∧
      (i256.resize 48 48 Resample.lanczos).height = 48 ∧
      (fs.iconsetDirExists = true → fs.saveSucceeds = true →
        ∃ out, (main fs).saved = some out ∧
          i256.resize 48 48 Resample.lanczos ∈ out.images) := by
  refine ⟨?_, rfl, rfl, ?_⟩
  · simp [imagesWith48, FS.pathExists, FS.openImage, h256]
  · intro hdir hsave
    have hmem : i256.resize 48 48 Resample.lanczos ∈
        imagesWith48 fs (collectLoop fs).images := by
      simp [imagesWith48, FS.pathExists, FS.openImage, h256, pyInsert]
    have hempty : (imagesWith48 fs (collectLoop fs).images).isEmpty = false := by
      cases hcase : imagesWith48 fs (collectLoop fs).images with
      | nil => rw [hcase] at hmem; simp at hmem
      | cons a l => rfl
    simp [main, hdir, hempty, hsave, hmem]

/-- Witness for C5 at the concrete all-files filesystem, inserting into an
empty collected list. -/
theorem main_inserts_48_witness :
    imagesWith48 fsAll [] =
        pyInsert [] 2 ((Image.png 256 256 5).resize 48 48 Resample.lanczos) ∧
      ((Image.png 256 256 5).resize 48 48 Resample.lanczos).width = 48 ∧
      ((Image.png 256 256 5).resize 48 48 Resample.lanczos).height = 48 ∧
      (fsAll.iconsetDirExists = true → fsAll.saveSucceeds = true →
        ∃ out, (main fsAll).saved = some out ∧
          (Image.png 256 256 5).resize 48 48 Resample.lanczos ∈ out.images) :=
  main_inserts_48 fsAll (.png 256 256 5) rfl []

/-- Whenever a run writes an output file, that file holds exactly the
area-sorted collected images together with the pre-sort sizes metadata. -/
theorem main_saved_eq (fs : FS) (out : IcoOutput) (h : (main fs).saved = some out) :
    out = { images := List.insertionSort areaGe (imagesWith48 fs (collectLoop fs).images)
            sizes := (imagesWith48 fs (collectLoop fs).images).map
              (fun img => (img.width, img.height)) } := by
  cases hdir : fs.iconsetDirExists with
  | false => simp [main, hdir] at h
  | true =>
    unfold main at h
    rw [hdir] at h
    simp only [Bool.not_true, Bool.false_eq_true, if_false] at h
    split at h
    · simp at h
    · split at h
      · exact (Option.some.inj h).symm
      · simp at h

/-- C6: every output file written by `main` consists of the collected images
reordered into descending pixel-area order: a permutation of the collected
list in which each image's area is at least the area of every later one (so
the first encoded image has maximal area). -/
theorem main_sorted_by_area (fs : FS) (out : IcoOutput)
    (h : (main fs).saved = some out) :
    out.images.Perm (imagesWith48 fs (collectLoop fs).images) ∧
      out.images.Pairwise (fun a b => b.area ≤ a.area) := by
  have he := main_saved_eq fs out h
  constructor
  · rw [he]
    exact List.perm_insertionSort areaGe _
  · rw [he]
    exact List.sorted_insertionSort areaGe _

/-- Witness for C6 at the concrete all-files filesystem and its output. -/
theorem main_sorted_by_area_witness :
    outAll.images.Perm (imagesWith48 fsAll (collectLoop fsAll).images) ∧
      outAll.images.Pairwise (fun a b => b.area ≤ a.area) :=
  main_sorted_by_area fsAll outAll rfl

/-- C10: the sizes metadata of every written output file is computed from
the collected list in pre-sort insertion order, and as a multiset it equals
the multiset of dimensions of the area-sorted images actually encoded. -/
theorem main_sizes_presort (fs : FS) (out : IcoOutput)
    (h : (main fs).saved = some out) :
    out.sizes = (imagesWith48 fs (collectLoop fs).images).map
        (fun img => (img.width, img.height)) ∧
      (out.images.map (fun img => (img.width, img.height))).Perm out.sizes := by
  have he := main_saved_eq fs out h
  constructor
  · rw [he]
  · rw [he]
    exact (List.perm_insertionSort areaGe _).map _

/-- Witness for C10 at the concrete all-files filesystem and its output. -/
theorem main_sizes_presort_witness :
    outAll.sizes = (imagesWith48 fsAll (collectLoop fsAll).images).map
        (fun img => (img.width, img.height)) ∧
      (outAll.images.map (fun img => (img.width, img.height))).Perm outAll.sizes :=
  main_sizes_presort fsAll outAll rfl

set_option maxRecDepth 8000 in
/-- C9: when `icon_256x256.png` is the only expected file present (of its
nominal 256x256 size) and the save succeeds, the collected list holds one
element, the insert at index 2 clamps to the end of the list, and the run
exits 0 having written exactly two resolution entries with the 256x256
image first. -/
theorem main_only_256 (fs : FS) (c : Nat)
    (hdir : fs.iconsetDirExists = true)
    (h16 : fs.findFile "icon_16x16.png" = none)
    (h32 : fs.findFile "icon_32x32.png" = none)
    (h64 : fs.findFile "icon_32x32@2x.png" = none)
    (h128 : fs.findFile "icon_128x128.png" = none)
    (h256 : fs.findFile "icon_256x256.png" = some (Image.png 256 256 c))
    (hsave : fs.saveSucceeds = true) :
    (collectLoop fs).images = [Image.png 256 256 c] ∧
      imagesWith48 fs (collectLoop fs).images =
        [Image.png 256 256 c,
         Image.resized (Image.png 256 256 c) 48 48 Resample.lanczos] ∧
      (main fs).exitCode = 0 ∧
      (main fs).saved = some
        { images := [Image.png 256 256 c,
                     Image.resized (Image.png 256 256 c) 48 48 Resample.lanczos]
          sizes := [(256, 256), (48, 48)] } := by
  have himg : (collectLoop fs).images = [Image.png 256 256 c] := by
    rw [collectLoop_images]
    simp [pngFiles, h16, h32, h64, h128, h256]
  have h2 : imagesWith48 fs (collectLoop fs).images =
      [Image.png 256 256 c,
       Image.resized (Image.png 256 256 c) 48 48 Resample.lanczos] := by
    rw [himg]
    simp [imagesWith48, FS.pathExists, FS.openImage, h256, pyInsert, Image.resize]
  have hempty : (imagesWith48 fs (collectLoop fs).images).isEmpty = false := by
    rw [h2]
    rfl
  obtain ⟨hexit, hsaved⟩ := main_success fs hdir hsave hempty
  refine ⟨himg, h2, hexit, ?_⟩
  rw [hsaved, h2]
  rfl

/-- Witness for C9 at the concrete filesystem holding only the 256x256
file. -/
theorem main_only_256_witness :
    (collectLoop fsOnly256).images = [Image.png 256 256 9] ∧
      imagesWith48 fsOnly256 (collectLoop fsOnly256).images =
        [Image.png 256 256 9,
         Image.resized (Image.png 256 256 9) 48 48 Resample.lanczos] ∧
      (main fsOnly256).exitCode = 0 ∧
      (main fsOnly256).saved = some
        { images := [Image.png 256 256 9,
                     Image.resized (Image.png 256 256 9) 48 48 Resample.lanczos]
          sizes := [(256, 256), (48, 48)] } :=
  main_only_256 fsOnly256 9 rfl rfl rfl rfl rfl rfl rfl

/-- C7: `main` is a deterministic function of what it reads, namely the
iconset directory, its contents and the encoder's behavior; two runs on
identical source contents produce identical outcomes, in particular
identical output files, regardless of unrelated filesystem state such as an
output left by an earlier run. -/
theorem main_deterministic (fs₁ fs₂ : FS)
    (hdir : fs₁.iconsetDirExists = fs₂.iconsetDirExists)
    (hfiles : fs₁.iconsetFiles = fs₂.iconsetFiles)
    (hsave : fs₁.saveSucceeds = fs₂.saveSucceeds) :
    main fs₁ = main fs₂ ∧ (main fs₁).saved = (main fs₂).saved := by
  obtain ⟨d₁, f₁, s₁, u₁⟩ := fs₁
  obtain ⟨d₂, f₂, s₂, u₂⟩ := fs₂
  simp only at hdir hfiles hsave
  subst hdir
  subst hfiles
  subst hsave
  exact ⟨rfl, rfl⟩

/-- Witness for C7: a first and a second run over the same iconset contents,
differing only in unrelated filesystem state. -/
theorem main_deterministic_witness :
    main fsAll = main fsAllSecondRun ∧
      (main fsAll).saved = (main fsAllSecondRun).saved :=
  main_deterministic fsAll fsAllSecondRun rfl rfl rfl

end GenerateIco
